import Mathlib

/-!
Verification of `test_suite_rs` (src/src/lib.rs), a Rust `macro_rules!` code
generator that expands a declarative test-suite description into one
`#[test]` function per declared test.

The development has two layers:

* A runtime layer embedding the body of every generated test function
  (lib.rs lines 183-193 / 145-155):

  ```
  $(let (pattern) =)? __internal_test_suite_setup();
  let test_result = std::panic::catch_unwind(AssertUnwindSafe(|| { $test }));
  let teardown_result = std::panic::catch_unwind(move || { __internal_test_suite_teardown(); });
  test_result.unwrap();
  teardown_result.unwrap();
  ```

  Panicking computations are embedded as state-threading functions
  `σ → σ × Except String α`: a `.error` value is a panic, `catch_unwind`
  is the act of keeping the `Except` value instead of matching on it at
  once, and `.unwrap()` is the final match that re-raises an `.error`.

* A syntactic layer embedding the macro itself: its two arms (all-groups
  vs all-tests), the generated module/`use` structure, and a model of the
  host compiler rules (tuple-pattern typing, `mut` patterns, the unused
  lint) that the expansion relies on.
-/

namespace TestSuiteRs

/-- A panicking computation over mutable state `σ`: it transforms the state
and either returns a value or panics with a message.  This is the shallow
embedding of a Rust call that may `panic!`. -/
def Comp (σ : Type) (α : Type) : Type := σ → σ × Except String α

/-- Embedding of the generated test function body, lib.rs lines 183-193
(identical to lines 145-155 in the grouped arm).

Line 185: `__internal_test_suite_setup()` runs *outside* any
`catch_unwind`; a panic there propagates at once (the `.error` early
return) and nothing further runs.  On success its result `vals` is the
tuple destructured into the declared bindings, so the body receives
exactly `vals`.

Line 187: the body runs inside `catch_unwind`; its outcome is captured
as `test_result` instead of propagating.

Line 189: teardown runs unconditionally inside its own `catch_unwind`,
producing `teardown_result`.

Lines 191-192: `test_result.unwrap(); teardown_result.unwrap();` — a
captured body failure is re-raised first; otherwise a captured teardown
failure is re-raised; otherwise the unit returns normally. -/
def runUnit {σ V : Type} (setup : Comp σ (List V))
    (body : List V → Comp σ Unit) (teardown : Comp σ Unit) : Comp σ Unit :=
  fun s =>
    match setup s with
    | (s1, Except.error e) => (s1, Except.error e)
    | (s1, Except.ok vals) =>
      let r2 := body vals s1
      let test_result := r2.2
      let r3 := teardown r2.1
      let teardown_result := r3.2
      match test_result with
      | Except.error e => (r3.1, Except.error e)
      | Except.ok _ => (r3.1, teardown_result)

/-- Embedding of the generated `__internal_test_suite_setup` wrapper
(lib.rs lines 173-175): with `- setup:` declared it calls the user setup,
without it the body `$($setup())?` expands to nothing and the function
returns `()` — zero fixtures, no effect, no panic. -/
def internalSetup {σ V : Type} (decl : Option (Comp σ (List V))) : Comp σ (List V) :=
  match decl with
  | some f => f
  | none => fun s => (s, Except.ok [])

/-- Embedding of the generated `__internal_test_suite_teardown` wrapper
(lib.rs lines 177-179): with `- teardown:` declared it calls the user
teardown, without it the body `$($teardown();)?` expands to nothing. -/
def internalTeardown {σ : Type} (decl : Option (Comp σ Unit)) : Comp σ Unit :=
  match decl with
  | some f => f
  | none => fun s => (s, Except.ok ())

/-- Instrumentation: run `c` on the first state component and leave the
attached instrumentation component untouched. -/
def liftFst {σ τ α : Type} (c : Comp σ α) : Comp (σ × τ) α :=
  fun p =>
    let r := c p.1
    ((r.1, p.2), r.2)

/-- Instrumentation: run `c` on the first state component and increment
the attached counter, recording one invocation. -/
def tickCount {σ α : Type} (c : Comp σ α) : Comp (σ × Nat) α :=
  fun p =>
    let r := c p.1
    ((r.1, p.2 + 1), r.2)

/-- A setup function that cannot panic, embedded as a `Comp` that always
returns `Except.ok` (for example the repository's own
`fn setup() -> (i32, &str) { (43, "my_string") }`, lib.rs lines 201-203). -/
def okSetup {σ V : Type} (f : σ → σ × List V) : Comp σ (List V) :=
  fun s =>
    let r := f s
    (r.1, Except.ok r.2)

/-- Instrumentation for the test body: run it and append the fixture
values it was invoked on to an attached log, recording both that it ran
and exactly which values it observed. -/
def logArgs {σ V : Type} (body : List V → Comp σ Unit) :
    List V → Comp (σ × List (List V)) Unit :=
  fun vals p =>
    let r := body vals p.1
    ((r.1, p.2 ++ [vals]), r.2)

/-- The harness runs every generated unit of a suite; each unit makes its
own call to the setup and teardown wrappers (the calls are generated
inside each `#[test]` fn, lib.rs lines 185 and 189).  Sequential order is
one legal schedule. -/
def runUnits {σ V : Type} (setup : Comp σ (List V))
    (bodies : List (List V → Comp σ Unit)) (teardown : Comp σ Unit) : σ → σ :=
  fun s =>
    match bodies with
    | [] => s
    | b :: rest => runUnits setup rest teardown (runUnit setup b teardown s).1

/-! ## Syntactic layer: the macro's grammar and expansion -/

/-- One test entry as matched by the macro fragment
`test $test_name:ident $(($($($arg_name:ident)*),+))? $test:block`
(lib.rs lines 121 and 166).  Each binding spec is the verbatim token list
`$($arg_name)*` (for example `["mut", "nbr"]` or `["_string"]`); `none`
means the parenthesized binding list is absent.  The body block is opaque,
kept as an identifier. -/
structure TestEntry where
  name : String
  bindings : Option (List (List String))
  body : Nat
  deriving Repr, DecidableEq

/-- One group as matched by
`mod $mod_name:ident { $(use $mod_imports:ident::*;)? $(test ...)* }`
(lib.rs lines 119-122). -/
structure Group where
  name : String
  groupImport : Option String
  tests : List TestEntry
  deriving Repr, DecidableEq

/-- A top-level item after the suite header: the grouped arm matches only
`mod` items, the flat arm only `test` items. -/
inductive Item where
  | testItem (t : TestEntry)
  | modItem (g : Group)
  deriving Repr, DecidableEq

/-- The suite description as matched by either arm's header (lib.rs lines
114-118 and 161-165): mandatory name, optional setup identifier with an
optional list of fixture types, optional teardown identifier, optional
top-level glob import, then the items. -/
structure SuiteDescription where
  name : String
  setup : Option (String × Option (List String))
  teardown : Option String
  topImport : Option String
  items : List Item
  deriving Repr, DecidableEq

/-- First macro arm (lib.rs line 119): the item sequence matches
`$(mod $mod_name:ident { ... })*` only when every item is a group. -/
def matchAllGroups : List Item → Option (List Group)
  | [] => some []
  | Item.modItem g :: rest =>
    match matchAllGroups rest with
    | some gs => some (g :: gs)
    | none => none
  | Item.testItem _ :: _ => none

/-- Second macro arm (lib.rs line 166): the item sequence matches
`$(test ...)*` only when every item is a bare test. -/
def matchAllTests : List Item → Option (List TestEntry)
  | [] => some []
  | Item.testItem t :: rest =>
    match matchAllTests rest with
    | some ts => some (t :: ts)
    | none => none
  | Item.modItem _ :: _ => none

/-- One generated `#[test]` function (lib.rs lines 144-155 / 182-193):
its name, the verbatim binding pattern spliced into the `let`, and the
opaque body. -/
structure GenUnit where
  name : String
  bindings : Option (List (List String))
  body : Nat
  deriving Repr, DecidableEq

/-- A generated group module (lib.rs lines 138-157): it contains the two
generated lines `use super::__internal_test_suite_setup;` and
`use super::__internal_test_suite_teardown;`, the group's own optional
glob import, and one unit per test of the group. -/
structure GenGroupMod where
  name : String
  groupImport : Option String
  units : List GenUnit
  deriving Repr, DecidableEq

/-- The body of the generated suite module: flat units (second arm) or
nested group modules (first arm). -/
inductive GenBody where
  | flatUnits (us : List GenUnit)
  | groupMods (gs : List GenGroupMod)
  deriving Repr, DecidableEq

/-- The generated suite module (lib.rs lines 124-159 / 168-195): a module
named after the suite holding the generated lines `use super::$setup;` and
`use super::$teardown;` when declared, the optional top-level glob import
`use $top_level_imports::*;`, the two internal wrapper functions, and the
generated body. -/
structure GenSuite where
  name : String
  setupUse : Option String
  teardownUse : Option String
  topImport : Option String
  body : GenBody
  deriving Repr, DecidableEq

/-- Each `test` entry is synthesized into exactly one `#[test]` fn, with
the binding list spliced verbatim (lib.rs lines 143-156 / 181-194). -/
def mkUnit (t : TestEntry) : GenUnit :=
  { name := t.name, bindings := t.bindings, body := t.body }

/-- The whole macro: try the grouped arm, then the flat arm (macro_rules
arms are tried in order); a description matching neither is a
generation-time error, modelled as `none`. -/
def expand (d : SuiteDescription) : Option GenSuite :=
  match matchAllGroups d.items with
  | some gs =>
    some
      { name := d.name
        setupUse := d.setup.map Prod.fst
        teardownUse := d.teardown
        topImport := d.topImport
        body := GenBody.groupMods (gs.map fun g =>
          { name := g.name, groupImport := g.groupImport
            units := g.tests.map mkUnit }) }
  | none =>
    match matchAllTests d.items with
    | some ts =>
      some
        { name := d.name
          setupUse := d.setup.map Prod.fst
          teardownUse := d.teardown
          topImport := d.topImport
          body := GenBody.flatUnits (ts.map mkUnit) }
    | none => none

/-- Number of generated `#[test]` units in an expanded suite. -/
def genUnitCount (g : GenSuite) : Nat :=
  match g.body with
  | GenBody.flatUnits us => us.length
  | GenBody.groupMods gs => (gs.map fun m => m.units.length).sum

/-- Number of `test` entries declared in a description, summed across
groups when the suite is grouped. -/
def entryCount (d : SuiteDescription) : Nat :=
  (d.items.map fun it =>
    match it with
    | Item.testItem _ => 1
    | Item.modItem g => g.tests.length).sum

/-! ## Host-language rules the generated code relies on

The macro splices tokens verbatim; whether the generated code is accepted
and what the bindings mean is decided by the Rust compiler.  The
definitions below embed the relevant Rust rules so claims about the
generated code can be settled. -/

/-- The positional destructuring performed by the generated
`let ($($($arg_name)*),*) = __internal_test_suite_setup();` (lib.rs
line 185): binding name `i` receives fixture value `i` of the tuple
returned by this invocation of setup. -/
def bindFixtures {V : Type} (names : List String) (vals : List V) :
    List (String × V) :=
  names.zip vals

/-- Rust tuple-pattern typing for the generated
`let (p1, ..., pk) = __internal_test_suite_setup();`, whose right-hand
side has the declared fixture tuple type `($($arg_type),*)` of arity `n`.
In Rust a parenthesized list of two or more patterns is a tuple pattern
and requires the scrutinee to be a tuple of exactly that arity, while a
single parenthesized pattern `(p)` is mere grouping: it matches a value
of any type and binds the whole value.  So the `let` typechecks exactly
when `k = 1` or `k = n`. -/
def letBindingTypechecks (bindingCount : Nat) (fixtureArity : Nat) : Bool :=
  bindingCount == 1 || bindingCount == fixtureArity

/-- Whether a generated unit passes the host compiler's check of its
binding `let` against the declared fixture arity: with no binding list no
`let` is generated (line 185's outer `$(...)?` is absent) and the setup
call's value is simply discarded, otherwise the tuple-pattern rule
applies. -/
def unitCompiles (u : GenUnit) (fixtureArity : Nat) : Bool :=
  match u.bindings with
  | none => true
  | some bs => letBindingTypechecks bs.length fixtureArity

/-- Rust's reading of one spliced binding spec `$($arg_name)*` (the macro
emits these ident tokens verbatim into the pattern): `x` binds `x`
immutably, `mut x` binds `x` mutably; anything else is not a single
identifier pattern. -/
def patBinding : List String → Option (Bool × String)
  | [x] => if x = "mut" then none else some (false, x)
  | [m, x] => if m = "mut" then some (true, x) else none
  | _ => none

/-- Whether the generated unit's `let` pattern lets `x` be reassigned in
the test body: in Rust assignment to a variable is accepted exactly when
its binding carries `mut`. -/
def canReassign (u : GenUnit) (x : String) : Bool :=
  match u.bindings with
  | none => false
  | some bs =>
    bs.any fun spec =>
      match patBinding spec with
      | some (m, n) => m && n == x
      | none => false

/-- Whether an identifier starts with an underscore (the discard-binding
convention). -/
def startsWithUnderscore (name : String) : Bool :=
  match name.data with
  | [] => false
  | c :: _ => c = '_'

/-- Rust's unused-variable lint on a binding: it fires only when the
binding is unused and the name does not start with an underscore; an
underscore-prefixed (discard) binding is never flagged, so its setup
value never has to be used in the body. -/
def unusedBindingWarns (name : String) (usedInBody : Bool) : Bool :=
  !usedInBody && !(startsWithUnderscore name)

/-- The test entry of suite `test_suite_mutability` (lib.rs lines
247-251): `test creates_the_test(mut nbr, _string) { ... }`. -/
def entryMut : TestEntry :=
  { name := "creates_the_test"
    bindings := some [["mut", "nbr"], ["_string"]]
    body := 0 }

/-! ## Name visibility in the generated modules

Rust resolves unqualified names per module: a name is in scope in a
module exactly when it is declared there or brought in by one of that
module's own `use` declarations; a parent module's `use` declarations are
not inherited.  `env p` gives the set of names a glob import `use p::*;`
brings in for an external path `p`; inside a group module the path
`super` denotes the generated suite module itself. -/

/-- Names visible unqualified inside the generated suite module: the two
internal wrapper functions it declares, the user setup/teardown names
re-imported by the generated `use super::$setup;` / `use super::$teardown;`
lines (lib.rs lines 125-126 / 169-170), and whatever the optional
top-level glob import `use $top_level_imports::*;` (line 127 / 171)
brings in. -/
def suiteScope (env : String → List String) (g : GenSuite) : List String :=
  ["__internal_test_suite_setup", "__internal_test_suite_teardown"] ++
    g.setupUse.toList ++ g.teardownUse.toList ++
    (match g.topImport with
     | some p => env p
     | none => [])

/-- Names visible unqualified inside a generated group module: the two
wrapper names its generated lines `use super::__internal_test_suite_setup;`
and `use super::__internal_test_suite_teardown;` re-import (lib.rs lines
139-140), plus whatever the group's own glob import
`use $mod_imports::*;` (line 141) brings in — where `use super::*;`
brings in the suite module's scope.  Nothing else: in particular the
suite-level top-level import is a `use` of the parent module and is not
inherited. -/
def groupScope (env : String → List String) (g : GenSuite)
    (m : GenGroupMod) : List String :=
  ["__internal_test_suite_setup", "__internal_test_suite_teardown"] ++
    (match m.groupImport with
     | some p => if p = "super" then suiteScope env g else env p
     | none => [])

/-- Whether an item is a group declaration (matched only by the first
macro arm). -/
def Item.isGroup : Item → Bool
  | Item.modItem _ => true
  | Item.testItem _ => false

/-- Whether an item is a bare test declaration (matched only by the
second macro arm). -/
def Item.isTest : Item → Bool
  | Item.testItem _ => true
  | Item.modItem _ => false

/-- Placeholder suite used only to extract the value of a successful
expansion in concrete examples. -/
def defaultGenSuite : GenSuite :=
  { name := "", setupUse := none, teardownUse := none, topImport := none
    body := GenBody.flatUnits [] }

/-! ### Concrete example inputs used by witnesses and counterexamples -/

/-- A setup that cannot panic and returns the single fixture `43`. -/
def setupOk : Comp Nat (List Nat) := fun s => (s + 1, Except.ok [43])

/-- A test body that panics (an assertion failure). -/
def bodyPanics : List Nat → Comp Nat Unit := fun _ s => (s, Except.error "assertion failed")

/-- A test body that succeeds. -/
def bodyOk : List Nat → Comp Nat Unit := fun _ s => (s + 10, Except.ok ())

/-- A teardown that succeeds. -/
def teardownOk : Comp Nat Unit := fun s => (s + 100, Except.ok ())

/-- A setup that panics before returning. -/
def setupPanics : Comp Nat (List Nat) := fun s => (s, Except.error "setup panicked")

/-- A non-panicking setup for the across-units freshness statement. -/
def fOk : Nat → Nat × List Nat := fun s => (s + 1, [43])

/-- Import environment for the visibility example: the external module
`helpers` exports one function `helper_fn`. -/
def env0 : String → List String := fun p => if p = "helpers" then ["helper_fn"] else []

/-- A grouped suite whose top level declares `use helpers::*;` and whose
single group declares no import of its own. -/
def d6 : SuiteDescription :=
  { name := "s", setup := none, teardown := none, topImport := some "helpers"
    items := [Item.modItem
      { name := "grp", groupImport := none
        tests := [{ name := "t", bindings := none, body := 0 }] }] }

/-- The expansion of `d6`. -/
def g6 : GenSuite := (expand d6).getD defaultGenSuite

/-- The single group module generated from `d6`. -/
def m6 : GenGroupMod :=
  { name := "grp", groupImport := none
    units := [{ name := "t", bindings := none, body := 0 }] }

/-- A grouped suite with two groups holding two tests and one test. -/
def d4 : SuiteDescription :=
  { name := "s4", setup := some ("setup", some ["i32"]), teardown := some "teardown"
    topImport := none
    items :=
      [Item.modItem
        { name := "g1", groupImport := none
          tests := [{ name := "t1", bindings := none, body := 0 },
                    { name := "t2", bindings := none, body := 1 }] },
       Item.modItem
        { name := "g2", groupImport := none
          tests := [{ name := "t3", bindings := none, body := 2 }] }] }

/-- The expansion of `d4`. -/
def g4 : GenSuite := (expand d4).getD defaultGenSuite

/-! ## Theorems -/

/-- C1: in every generated unit whose setup call returned (so the body
ran at all), the teardown wrapper is executed exactly once — the counter
attached to it goes from `n` to `n + 1` — for every body, whether the
body's captured outcome is success or a panic, and for every teardown,
including a panicking one (its panic is captured by its own
`catch_unwind` region, lib.rs line 189, and does not abort the unit
before resolution). -/
theorem claim_C1_teardown_exactly_once {σ V : Type} (setup : Comp σ (List V))
    (body : List V → Comp σ Unit) (teardown : Comp σ Unit)
    (s s1 : σ) (vals : List V) (n : Nat)
    (h : setup s = (s1, Except.ok vals)) :
    ((runUnit (liftFst setup) (fun v => liftFst (body v)) (tickCount teardown))
        (s, n)).1.2 = n + 1 := by
  simp only [runUnit, liftFst, tickCount, h]
  cases hb : (body vals s1).2 <;> simp

/-- Witness for C1 at a concrete input: a panicking body, a succeeding
teardown; the teardown counter ends at exactly 1. -/
theorem claim_C1_witness :
    ((runUnit (liftFst setupOk) (fun v => liftFst (bodyPanics v)) (tickCount teardownOk))
        (0, 0)).1.2 = 0 + 1 :=
  claim_C1_teardown_exactly_once setupOk bodyPanics teardownOk 0 1 [43] 0 rfl

/-- C2: the generated `test_result.unwrap(); teardown_result.unwrap();`
(lib.rs lines 191-192) resolves the unit's outcome by priority: a
captured body failure is re-raised even though teardown already ran; if
the body succeeded, a captured teardown failure is re-raised; if both
succeeded the unit passes.  A captured failure not superseded by a
higher-priority one is therefore never swallowed. -/
theorem claim_C2_outcome_priority {σ V : Type} (setup : Comp σ (List V))
    (body : List V → Comp σ Unit) (teardown : Comp σ Unit)
    (s s1 : σ) (vals : List V)
    (h : setup s = (s1, Except.ok vals)) :
    (∀ e, (body vals s1).2 = Except.error e →
        (runUnit setup body teardown s).2 = Except.error e) ∧
    (∀ e, (body vals s1).2 = Except.ok () →
        (teardown (body vals s1).1).2 = Except.error e →
        (runUnit setup body teardown s).2 = Except.error e) ∧
    ((body vals s1).2 = Except.ok () →
        (teardown (body vals s1).1).2 = Except.ok () →
        (runUnit setup body teardown s).2 = Except.ok ()) := by
  refine ⟨fun e he => ?_, fun e hb ht => ?_, fun hb ht => ?_⟩
  · simp only [runUnit, h]; simp [he]
  · simp only [runUnit, h]; simp [hb, ht]
  · simp only [runUnit, h]; simp [hb, ht]

/-- Witness for C2 at a concrete input: the body panics and teardown
succeeds; the unit's reported outcome is the body's panic. -/
theorem claim_C2_witness :
    (runUnit setupOk bodyPanics teardownOk 0).2 = Except.error "assertion failed" :=
  (claim_C2_outcome_priority setupOk bodyPanics teardownOk 0 1 [43] rfl).1
    "assertion failed" rfl

/-- C7: with neither setup nor teardown declared, the generated wrappers
have empty bodies (lib.rs lines 173-179), so a generated unit is
observationally the body alone run with zero fixture values: same final
state (no cleanup effect at unit exit) and same outcome. -/
theorem claim_C7_no_setup_no_teardown {σ V : Type}
    (body : List V → Comp σ Unit) (s : σ) :
    runUnit (internalSetup none) body (internalTeardown none) s = body [] s := by
  simp only [runUnit, internalSetup, internalTeardown]
  cases hb : body [] s with
  | mk s2 r =>
    cases r with
    | error e => simp [hb]
    | ok u => cases u; simp [hb]

/-- C10: the setup call is generated outside both `catch_unwind` regions
(lib.rs line 185); if setup panics the unit fails with that panic at
once, and the shared invocation counter attached to both the body and the
teardown stays at `n`: neither is invoked. -/
theorem claim_C10_setup_uncaught {σ V : Type} (setup : Comp σ (List V))
    (body : List V → Comp σ Unit) (teardown : Comp σ Unit)
    (s s1 : σ) (e : String) (n : Nat)
    (h : setup s = (s1, Except.error e)) :
    runUnit (liftFst setup) (fun v => tickCount (body v)) (tickCount teardown)
        (s, n) = ((s1, n), Except.error e) := by
  simp [runUnit, liftFst, h]

/-- Witness for C10 at a concrete input: a panicking setup; the unit
reports the setup panic and the body/teardown counter is still 0. -/
theorem claim_C10_witness :
    runUnit (liftFst setupPanics) (fun v => tickCount (bodyOk v)) (tickCount teardownOk)
        (0, 0) = ((0, 0), Except.error "setup panicked") :=
  claim_C10_setup_uncaught setupPanics bodyOk teardownOk 0 0 "setup panicked" 0 rfl

/-- Running one unit with a non-panicking setup under an attached counter
that ticks at each setup call: the unit behaves as uninstrumented and the
counter advances by exactly one. -/
theorem runUnit_setup_tick {σ V : Type} (f : σ → σ × List V)
    (b : List V → Comp σ Unit) (td : Comp σ Unit) (s : σ) (n : Nat) :
    runUnit (tickCount (okSetup f)) (fun v => liftFst (b v)) (liftFst td) (s, n)
      = (((runUnit (okSetup f) b td s).1, n + 1), (runUnit (okSetup f) b td s).2) := by
  simp only [runUnit, tickCount, liftFst, okSetup]
  cases hb : (b (f s).2 (f s).1).2 <;> simp [hb]

/-- Across a whole suite, each generated unit makes its own setup call:
running `k` units advances the setup counter by exactly `k`. -/
theorem runUnits_setup_calls {σ V : Type} (f : σ → σ × List V)
    (td : Comp σ Unit) (bodies : List (List V → Comp σ Unit)) :
    ∀ (s : σ) (n : Nat),
      (runUnits (tickCount (okSetup f)) (bodies.map fun b v => liftFst (b v))
          (liftFst td) (s, n)).2 = n + bodies.length := by
  induction bodies with
  | nil => intro s n; simp [runUnits]
  | cons b rest ih =>
    intro s n
    simp only [List.map_cons, runUnits, runUnit_setup_tick]
    rw [ih]
    simp only [List.length_cons]
    omega

/-- C3: fixture protocol of a generated unit.  (i) The setup wrapper is
invoked exactly once per unit (counter `n` becomes `n + 1`).  (ii) The
body runs exactly once and observes exactly the value list this
invocation of setup returned — the log gains the single entry `vals`, so
there is no substitution or reuse of other values.  (iii) The generated
`let` destructures positionally: binding name `i` receives fixture value
`i`.  (iv) Across a suite, `k` generated units make `k` fresh setup
calls — no caching across units. -/
theorem claim_C3_fresh_fixtures {σ V : Type} (setup : Comp σ (List V))
    (body : List V → Comp σ Unit) (teardown : Comp σ Unit)
    (f : σ → σ × List V) (bodies : List (List V → Comp σ Unit))
    (s s1 : σ) (vals : List V) (n : Nat) (log : List (List V))
    (h : setup s = (s1, Except.ok vals)) :
    ((runUnit (tickCount setup) (fun v => liftFst (body v)) (liftFst teardown))
        (s, n)).1.2 = n + 1 ∧
    ((runUnit (liftFst setup) (logArgs body) (liftFst teardown))
        (s, log)).1.2 = log ++ [vals] ∧
    (∀ (names : List String) (i : Nat) (nm : String) (v : V),
        names[i]? = some nm → vals[i]? = some v →
        (bindFixtures names vals)[i]? = some (nm, v)) ∧
    (runUnits (tickCount (okSetup f)) (bodies.map fun b v => liftFst (b v))
        (liftFst teardown) (s, n)).2 = n + bodies.length := by
  refine ⟨?_, ?_, ?_, runUnits_setup_calls f teardown bodies s n⟩
  · simp only [runUnit, tickCount, liftFst, h]
    cases hb : (body vals s1).2 <;> simp [hb]
  · simp only [runUnit, liftFst, logArgs, h]
    cases hb : (body vals s1).2 <;> simp [hb]
  · intro names i nm v h1 h2
    simp only [bindFixtures, List.getElem?_zip_eq_some]
    exact ⟨h1, h2⟩

/-- Witness for C3 at a concrete input: setup returns `[43]`, bound to
name `nbr`; two units make two setup calls. -/
theorem claim_C3_witness :
    ((runUnit (tickCount setupOk) (fun v => liftFst (bodyOk v)) (liftFst teardownOk))
        (0, 0)).1.2 = 0 + 1 ∧
    ((runUnit (liftFst setupOk) (logArgs bodyOk) (liftFst teardownOk))
        (0, [])).1.2 = [] ++ [[43]] ∧
    (∀ (names : List String) (i : Nat) (nm : String) (v : Nat),
        names[i]? = some nm → ([43] : List Nat)[i]? = some v →
        (bindFixtures names [43])[i]? = some (nm, v)) ∧
    (runUnits (tickCount (okSetup fOk)) (([bodyOk, bodyOk]).map fun b v => liftFst (b v))
        (liftFst teardownOk) (0, 0)).2 = 0 + ([bodyOk, bodyOk]).length :=
  claim_C3_fresh_fixtures setupOk bodyOk teardownOk fOk [bodyOk, bodyOk]
    0 1 [43] 0 [] rfl

/-- The first macro arm matches exactly when the item list consists of
group declarations, and then reads them off in order. -/
theorem matchAllGroups_eq_some (l : List Item) (gs : List Group)
    (h : matchAllGroups l = some gs) : l = gs.map Item.modItem := by
  induction l generalizing gs with
  | nil =>
    simp only [matchAllGroups] at h
    cases h
    rfl
  | cons it rest ih =>
    cases it with
    | testItem t => simp [matchAllGroups] at h
    | modItem g =>
      simp only [matchAllGroups] at h
      cases hr : matchAllGroups rest with
      | none => rw [hr] at h; cases h
      | some gs2 =>
        rw [hr] at h
        cases h
        simp [ih gs2 hr]

/-- The second macro arm matches exactly when the item list consists of
bare test declarations, and then reads them off in order. -/
theorem matchAllTests_eq_some (l : List Item) (ts : List TestEntry)
    (h : matchAllTests l = some ts) : l = ts.map Item.testItem := by
  induction l generalizing ts with
  | nil =>
    simp only [matchAllTests] at h
    cases h
    rfl
  | cons it rest ih =>
    cases it with
    | modItem g => simp [matchAllTests] at h
    | testItem t =>
      simp only [matchAllTests] at h
      cases hr : matchAllTests rest with
      | none => rw [hr] at h; cases h
      | some ts2 =>
        rw [hr] at h
        cases h
        simp [ih ts2 hr]

/-- Summing the constant 1 over a list counts its elements. -/
theorem sum_map_one (ts : List TestEntry) :
    (ts.map fun _ => (1 : Nat)).sum = ts.length := by
  induction ts with
  | nil => rfl
  | cons t rest ih => simp [ih]; omega

/-- C4: whenever the macro accepts a description, every declared test
entry is synthesized into exactly one `#[test]` unit, so the number of
generated units equals the number of test entries, summed across groups
for grouped suites. -/
theorem claim_C4_unit_count (d : SuiteDescription) (g : GenSuite)
    (h : expand d = some g) : genUnitCount g = entryCount d := by
  unfold expand at h
  cases hg : matchAllGroups d.items with
  | some gs =>
    rw [hg] at h
    cases h
    simp only [genUnitCount, entryCount, matchAllGroups_eq_some d.items gs hg,
      List.map_map, Function.comp_def, List.length_map]
  | none =>
    rw [hg] at h
    cases ht : matchAllTests d.items with
    | none => rw [ht] at h; cases h
    | some ts =>
      rw [ht] at h
      cases h
      simp only [genUnitCount, entryCount, matchAllTests_eq_some d.items ts ht,
        List.map_map, Function.comp_def, List.length_map]
      rw [sum_map_one]

/-- Witness for C4 at a concrete input: a grouped suite with two groups
holding three tests in total expands to exactly three units. -/
theorem claim_C4_witness :
    expand d4 = some g4 ∧ genUnitCount g4 = entryCount d4 :=
  ⟨rfl, claim_C4_unit_count d4 g4 rfl⟩

/-- The first macro arm accepts exactly the all-group item lists. -/
theorem matchAllGroups_isSome (l : List Item) :
    (matchAllGroups l).isSome = l.all Item.isGroup := by
  induction l with
  | nil => rfl
  | cons it rest ih =>
    cases it with
    | testItem t => simp [matchAllGroups, Item.isGroup]
    | modItem g =>
      simp only [List.all_cons, Item.isGroup, Bool.true_and, ← ih]
      cases hr : matchAllGroups rest <;> simp [matchAllGroups, hr]

/-- The second macro arm accepts exactly the all-test item lists. -/
theorem matchAllTests_isSome (l : List Item) :
    (matchAllTests l).isSome = l.all Item.isTest := by
  induction l with
  | nil => rfl
  | cons it rest ih =>
    cases it with
    | modItem g => simp [matchAllTests, Item.isTest]
    | testItem t =>
      simp only [List.all_cons, Item.isTest, Bool.true_and, ← ih]
      cases hr : matchAllTests rest <;> simp [matchAllTests, hr]

/-- C8: the macro accepts a suite exactly when its items are all groups
(first arm) or all bare tests (second arm); a description mixing the two
matches neither arm and is rejected at expansion time. -/
theorem claim_C8_flat_xor_grouped (d : SuiteDescription) :
    (expand d).isSome ↔
      (d.items.all Item.isGroup = true ∨ d.items.all Item.isTest = true) := by
  rw [← matchAllGroups_isSome, ← matchAllTests_isSome]
  unfold expand
  cases hg : matchAllGroups d.items with
  | some gs => simp
  | none =>
    cases ht : matchAllTests d.items with
    | none => simp
    | some ts => simp

/-- C5 counterexample: a test entry declaring exactly one binding under a
two-fixture setup has binding count neither 0 nor 2, yet the generated
`let (x) = __internal_test_suite_setup();` is accepted by the host
compiler — `(x)` is a parenthesized (not tuple) pattern, so `x` silently
receives the whole two-fixture tuple and no error is raised at any
stage. -/
theorem claim_C5_counterexample :
    (mkUnit { name := "t", bindings := some [["x"]], body := 0 }).bindings
        = some [["x"]] ∧
    ([["x"]] : List (List String)).length ≠ 0 ∧
    ([["x"]] : List (List String)).length ≠ 2 ∧
    unitCompiles (mkUnit { name := "t", bindings := some [["x"]], body := 0 }) 2
        = true :=
  ⟨rfl, by decide, by decide, rfl⟩

/-- C5 (amended): a declared binding count of 2 or more that differs from
the fixture arity fails the host compiler's tuple-pattern check at
compile time, before any generated code runs; a binding count of exactly
1, however, is accepted for every arity, binding the single name to the
entire fixture tuple. -/
theorem claim_C5_binding_arity (u : GenUnit) (bs : List (List String))
    (arity : Nat) (h : u.bindings = some bs) :
    (2 ≤ bs.length → bs.length ≠ arity → unitCompiles u arity = false) ∧
    (bs.length = 1 → unitCompiles u arity = true) := by
  constructor
  · intro h2 h3
    simp only [unitCompiles, h, letBindingTypechecks]
    simp only [Bool.or_eq_false_iff, beq_eq_false_iff_ne]
    exact ⟨by omega, h3⟩
  · intro h1
    simp [unitCompiles, h, letBindingTypechecks, h1]

/-- Witness for the amended C5 at concrete inputs: three bindings against
two fixtures is rejected; one binding against two fixtures is accepted. -/
theorem claim_C5_witness :
    unitCompiles (mkUnit { name := "t3", bindings := some [["a"], ["b"], ["c"]], body := 0 }) 2
        = false ∧
    unitCompiles (mkUnit { name := "t1", bindings := some [["x"]], body := 0 }) 2
        = true :=
  ⟨(claim_C5_binding_arity
      (mkUnit { name := "t3", bindings := some [["a"], ["b"], ["c"]], body := 0 })
      [["a"], ["b"], ["c"]] 2 rfl).1 (by decide) (by decide),
   (claim_C5_binding_arity
      (mkUnit { name := "t1", bindings := some [["x"]], body := 0 })
      [["x"]] 2 rfl).2 rfl⟩

/-- C6 counterexample: in the expansion of `d6` — top-level
`use helpers::*;`, one group with no import of its own — the name
`helper_fn` brought in by the suite-level import is visible in the suite
module but not inside the generated group module: the group module's only
generated `use` lines are the two wrapper re-imports (lib.rs lines
139-140), so a group test referencing `helper_fn` does not resolve,
contradicting the claim that group tests see the suite-level
top-level import without redeclaring it. -/
theorem claim_C6_counterexample :
    expand d6 = some g6 ∧
    g6.body = GenBody.groupMods [m6] ∧
    "helper_fn" ∈ suiteScope env0 g6 ∧
    "helper_fn" ∉ groupScope env0 g6 m6 :=
  ⟨rfl, rfl, by decide, by decide⟩

/-- C6 (amended): a group's tests always see the suite-level setup and
teardown, because every generated group module re-imports the internal
wrapper functions (lib.rs lines 139-140), and they see whatever the
group's own import brings in; the suite-level top-level import, however,
is a `use` of the parent module and is not inherited — its names reach a
group only through the group's own import, for example `use super::*;`. -/
theorem claim_C6_group_visibility (env : String → List String)
    (g : GenSuite) (m : GenGroupMod) :
    "__internal_test_suite_setup" ∈ groupScope env g m ∧
    "__internal_test_suite_teardown" ∈ groupScope env g m ∧
    (∀ p, m.groupImport = some p → p ≠ "super" →
        ∀ x ∈ env p, x ∈ groupScope env g m) ∧
    (m.groupImport = some "super" →
        ∀ x ∈ suiteScope env g, x ∈ groupScope env g m) := by
  refine ⟨by simp [groupScope], by simp [groupScope], ?_, ?_⟩
  · intro p hp hps x hx
    simp only [groupScope, hp, if_neg hps, List.mem_append, List.mem_cons]
    tauto
  · intro hp x hx
    simp only [groupScope, hp, if_pos rfl, List.mem_append, List.mem_cons]
    tauto

/-- Witness for the amended C6 at a concrete input: with the group import
`use super::*;`, the suite-level import's name `helper_fn` does become
visible inside the group. -/
theorem claim_C6_witness :
    "helper_fn" ∈ groupScope env0 g6
      { name := "grp", groupImport := some "super", units := [] } :=
  (claim_C6_group_visibility env0 g6
      { name := "grp", groupImport := some "super", units := [] }).2.2.2
    rfl "helper_fn" (by decide)

/-- C9: bindings are spliced verbatim into the generated `let` pattern,
so a spec `mut x` produces a Rust `mut` binding, which may be reassigned
in the body; and an underscore-prefixed (discard) binding never triggers
the unused-variable lint, so its setup value never has to be used.  The
concrete instance is the entry of suite `test_suite_mutability`
(lib.rs lines 247-251): `(mut nbr, _string)`. -/
theorem claim_C9_mut_and_discard (name : String) (used : Bool)
    (h : startsWithUnderscore name = true) :
    canReassign (mkUnit entryMut) "nbr" = true ∧
    (∀ (u : GenUnit) (bs : List (List String)) (x : String),
        u.bindings = some bs → ["mut", x] ∈ bs → canReassign u x = true) ∧
    unusedBindingWarns name used = false := by
  refine ⟨rfl, ?_, ?_⟩
  · intro u bs x h1 h2
    simp only [canReassign, h1, List.any_eq_true]
    exact ⟨["mut", x], h2, by simp [patBinding]⟩
  · simp [unusedBindingWarns, h]

/-- Witness for C9 at concrete inputs: `mut nbr` may be reassigned and an
unused `_string` raises no lint. -/
theorem claim_C9_witness :
    canReassign (mkUnit entryMut) "nbr" = true ∧
    (∀ (u : GenUnit) (bs : List (List String)) (x : String),
        u.bindings = some bs → ["mut", x] ∈ bs → canReassign u x = true) ∧
    unusedBindingWarns "_string" false = false :=
  claim_C9_mut_and_discard "_string" false (by decide)

end TestSuiteRs
